import Mathlib

/-!
Shallow embedding of the monitoring/drift-decision workflow of
`src/airflow/dags/monitoring_dag.py`, together with theorems checking the
natural-language specification against it.

Conventions of the embedding:
* Python `datetime` values are absolute second counts (`Int`), proleptic
  Gregorian, exactly as Python's `datetime` arithmetic behaves (no leap
  seconds).  Calendar extraction uses the standard civil-from-days
  algorithm.
* Python floats are modelled by `ℚ`; `NaN` outcomes (0/0 in numpy/pandas)
  are modelled by `Option ℚ` with `none` standing for `NaN`.
* External collaborators (S3, CloudWatch, pickled model objects) are
  explicit world records; an S3 object that is present but unreadable is
  `some none`, an absent object is `none`.
* A task that raises is an `Except.error`; emitted CloudWatch metrics and
  written S3 reports are collected in output lists.
-/

namespace MonitoringDag

/-- A Python `datetime` as an absolute number of seconds (proleptic Gregorian). -/
abbrev Timestamp := Int

/-- Day number of a timestamp (floor division by 86400 seconds). -/
def dayOf (t : Timestamp) : Int := Int.fdiv t 86400

/-- `timedelta(days := n)` subtraction on datetimes. -/
def subDays (t : Timestamp) (n : Int) : Timestamp := t - n * 86400

/-- `timedelta(hours := n)` subtraction on datetimes. -/
def subHours (t : Timestamp) (n : Int) : Timestamp := t - n * 3600

/-- Civil (year, month, day) of a day number, standard civil-from-days algorithm
(the calendar Python's `datetime.date` implements). -/
def civilFromDays (z : Int) : Int × Nat × Nat :=
  let z' := z + 719468
  let era := Int.fdiv z' 146097
  let doe := (z' - era * 146097).toNat
  let yoe := (doe - doe / 1460 + doe / 36524 - doe / 146096) / 365
  let doy := doe - (365 * yoe + yoe / 4 - yoe / 100)
  let mp := (5 * doy + 2) / 153
  let d := doy - (153 * mp + 2) / 5 + 1
  let m := if mp < 10 then mp + 3 else mp - 9
  ((yoe : Int) + era * 400 + (if m ≤ 2 then 1 else 0), m, d)

/-- Inverse direction, used to build concrete dates in examples. -/
def daysFromCivil (y : Int) (m d : Nat) : Int :=
  let y' := if m ≤ 2 then y - 1 else y
  let era := Int.fdiv y' 400
  let yoe := (y' - era * 400).toNat
  let mp := if 2 < m then m - 3 else m + 9
  let doy := (153 * mp + 2) / 5 + d - 1
  let doe := yoe * 365 + yoe / 4 - yoe / 100 + doy
  era * 146097 + (doe : Int) - 719468

/-- Year of a timestamp (`datetime.year`). -/
def yearOf (t : Timestamp) : Int := (civilFromDays (dayOf t)).1

/-- Month of a timestamp (`datetime.month`). -/
def monthOf (t : Timestamp) : Nat := (civilFromDays (dayOf t)).2.1

/-- Day-of-month of a timestamp (`datetime.day`). -/
def domOf (t : Timestamp) : Nat := (civilFromDays (dayOf t)).2.2

/-- Two-digit zero padding, Python's `{:02d}` format. -/
def pad2 (n : Nat) : String := if n < 10 then "0" ++ toString n else toString n

/-- Python `f'{year}-{month:02d}'`. -/
def epochStr (y : Int) (m : Nat) : String := toString y ++ "-" ++ pad2 m

/-- Python `strftime('%Y-%m-%d')`. -/
def dateDashStr (t : Timestamp) : String :=
  toString (yearOf t) ++ "-" ++ pad2 (monthOf t) ++ "-" ++ pad2 (domOf t)

/-- Python `strftime('%Y/%m/%d')`, the prediction-log partition prefix. -/
def dateSlashStr (t : Timestamp) : String :=
  toString (yearOf t) ++ "/" ++ pad2 (monthOf t) ++ "/" ++ pad2 (domOf t)

/-- Embedding of `get_data_date_from_context` (monitoring_dag.py lines 38-50):
subtract `timedelta(days=730)` from the execution date and take that date's
year and month; the execution date itself is returned unchanged as the third
component. -/
def get_data_date_from_context (t : Timestamp) : Int × Nat × Timestamp :=
  let data_date := subDays t 730
  (yearOf data_date, monthOf data_date, t)

/-- Reference definition written from the spec's words (§4.1): the output is
the (year, month) of the date obtained as trigger_timestamp minus the fixed
730-day offset. -/
def epochResolverSpec (t : Timestamp) : Int × Nat :=
  (yearOf (subDays t 730), monthOf (subDays t 730))

/-! ### Drift Test Runner (`run_drift_check`, lines 521-574) -/

/-- One entry of the evidently test suite's `as_dict()['tests']` list. -/
structure DriftTest where
  name : String
  status : String

/-- The evidently test-suite result dict: per-test list plus the
`summary.all_passed` boolean the code branches on. -/
structure DriftTestResult where
  tests : List DriftTest
  all_passed : Bool

/-- JSON values, the shape `json.dump`/`json.load` preserve. -/
inductive Json where
  | null : Json
  | bool (b : Bool) : Json
  | num (q : ℚ) : Json
  | str (s : String) : Json
  | arr (xs : List Json) : Json
  | obj (fields : List (String × Json)) : Json

/-- Object-field access on a JSON value. -/
def Json.get (j : Json) (k : String) : Option Json :=
  match j with
  | .obj fields => fields.lookup k
  | _ => none

/-- Read a JSON boolean. -/
def Json.asBool : Json → Option Bool
  | .bool b => some b
  | _ => none

/-- JSON encoding of one test entry of the suite result. -/
def encodeDriftTest (t : DriftTest) : Json :=
  .obj [("name", .str t.name), ("status", .str t.status)]

/-- JSON encoding of the suite result dict written to
`monitoring/drift-results/{run-date}.json`. -/
def encodeDriftTestResult (r : DriftTestResult) : Json :=
  .obj [("summary", .obj [("all_passed", .bool r.all_passed)]),
        ("tests", .arr (r.tests.map encodeDriftTest))]

/-- Modelled from the spec: the repository writes the drift artifact but ships
no reader for it, so the deserializer reads `summary.all_passed` following the
spec's drift report JSON schema (§6: summary.all_passed plus a tests list). -/
def decodeAllPassed (j : Json) : Option Bool :=
  (j.get "summary").bind (fun s => (s.get "all_passed").bind Json.asBool)

/-- Output of one `run_drift_check` invocation: the S3 writes and the branch
selector returned to the `BranchPythonOperator`. -/
structure DriftCheckOutput where
  stored : List (String × Json)
  selector : String

/-- Embedding of `run_drift_check` (lines 521-574): take the suite result the
evidently library produced on (Reference, Current), read
`summary.all_passed`, persist the whole result dict to
`monitoring/drift-results/{run-date}.json`, and return the task id of the
branch to execute: `end_task` when every test passed, else `trigger_alert`. -/
def run_drift_check (t : Timestamp) (test_results : DriftTestResult) : DriftCheckOutput :=
  let all_passed := test_results.all_passed
  let results_key := "monitoring/drift-results/" ++ dateDashStr t ++ ".json"
  { stored := [(results_key, encodeDriftTestResult test_results)]
    selector := if all_passed then "end_task" else "trigger_alert" }

/-- The downstream task ids wired to `run_drift_check_task` (line 690):
`run_drift_check_task >> [trigger_alert_task, end_task_operator]`. -/
def run_drift_check_downstream : List String := ["trigger_alert", "end_task"]

/-! ### Data Quality Checker (`check_data_quality`, lines 52-167) -/

/-- One row of the raw parquet dataset.  Nullable columns are `Option`;
pickup/dropoff instants are exact second counts. -/
structure TripRecord where
  puLocation : Option Int
  doLocation : Option Int
  trip_distance : Option ℚ
  pickupTime : ℚ
  dropoffTime : ℚ
deriving DecidableEq

/-- `duration_minutes`: `(dropoff - pickup).total_seconds() / 60`. -/
def TripRecord.durationMinutes (r : TripRecord) : ℚ :=
  (r.dropoffTime - r.pickupTime) / 60

/-- `df['trip_distance'] == 0` on one row; `NaN == 0` is false in pandas. -/
def distZero (r : TripRecord) : Bool :=
  match r.trip_distance with
  | some d => decide (d = 0)
  | none => false

/-- `df['trip_distance'] < 0` on one row; `NaN < 0` is false in pandas. -/
def distNeg (r : TripRecord) : Bool :=
  match r.trip_distance with
  | some d => decide (d < 0)
  | none => false

/-- pandas `skipna` mean: `NaN` (`none`) when there is no value. -/
def meanQ (xs : List ℚ) : Option ℚ :=
  if xs.length = 0 then none else some (xs.sum / (xs.length : ℚ))

/-- pandas sample standard deviation (`ddof = 1`), `NaN` with fewer than two
values; the square root of the exact rational variance is taken by the
abstract float square root `sqrtQ`. -/
def stdQ (sqrtQ : ℚ → ℚ) (xs : List ℚ) : Option ℚ :=
  if xs.length ≤ 1 then none
  else
    let μ := xs.sum / (xs.length : ℚ)
    some (sqrtQ (((xs.map (fun x => (x - μ) ^ 2)).sum) / ((xs.length - 1 : Nat) : ℚ)))

/-- The `quality_metrics` dict, in insertion order; `none` is a `NaN` value. -/
structure QualityMetrics where
  total_records : Nat
  null_pickup_locations : Nat
  null_dropoff_locations : Nat
  null_trip_distance : Nat
  zero_trip_distance : Nat
  negative_trip_distance : Nat
  mean_trip_distance : Option ℚ
  std_trip_distance : Option ℚ
  mean_duration : Option ℚ
  std_duration : Option ℚ
  outlier_duration_short : Nat
  outlier_duration_long : Nat
  data_completeness_score : Option ℚ
deriving DecidableEq

/-- Embedding of the `quality_metrics` computation (lines 73-96).  The
completeness score is `(1 - nulls/(3·len)) · 100`, `NaN` when the frame is
empty (numpy `0/0`). -/
def computeQualityMetrics (sqrtQ : ℚ → ℚ) (df : List TripRecord) : QualityMetrics :=
  let n := df.length
  let nullPU := df.countP (fun r => r.puLocation.isNone)
  let nullDO := df.countP (fun r => r.doLocation.isNone)
  let nullDist := df.countP (fun r => r.trip_distance.isNone)
  let dists := df.filterMap (fun r => r.trip_distance)
  let durations := df.map (fun r => r.durationMinutes)
  { total_records := n
    null_pickup_locations := nullPU
    null_dropoff_locations := nullDO
    null_trip_distance := nullDist
    zero_trip_distance := df.countP distZero
    negative_trip_distance := df.countP distNeg
    mean_trip_distance := meanQ dists
    std_trip_distance := stdQ sqrtQ dists
    mean_duration := meanQ durations
    std_duration := stdQ sqrtQ durations
    outlier_duration_short := df.countP (fun r => decide (r.durationMinutes < 1))
    outlier_duration_long := df.countP (fun r => decide (60 < r.durationMinutes))
    data_completeness_score :=
      if n = 0 then none
      else some ((1 - ((nullPU + nullDO + nullDist : Nat) : ℚ) / ((n : ℚ) * 3)) * 100) }

/-- The `quality_checks` dict of the report (lines 123-128); a comparison
against `NaN` is false. -/
structure QualityChecks where
  data_completeness_passed : Bool
  outlier_percentage_acceptable : Bool
  no_negative_distances : Bool
deriving DecidableEq

/-- Embedding of the gate computation (lines 123-128). -/
def computeQualityChecks (qm : QualityMetrics) : QualityChecks :=
  { data_completeness_passed :=
      match qm.data_completeness_score with
      | some c => decide (95 < c)
      | none => false
    outlier_percentage_acceptable :=
      if qm.total_records = 0 then false
      else decide (((qm.outlier_duration_short + qm.outlier_duration_long : Nat) : ℚ)
          / (qm.total_records : ℚ) < 1 / 10)
    no_negative_distances := decide (qm.negative_trip_distance = 0) }

/-- The quality report JSON written to
`monitoring/data-quality/{epoch}/{run-date}.json`. -/
structure QualityReport where
  execution_date : Timestamp
  data_date : String
  quality_metrics : QualityMetrics
  quality_checks : QualityChecks
deriving DecidableEq

/-- The metric dict in emission order with `NaN`s still present. -/
def qualityMetricValues (qm : QualityMetrics) : List (String × Option ℚ) :=
  [("total_records", some (qm.total_records : ℚ)),
   ("null_pickup_locations", some (qm.null_pickup_locations : ℚ)),
   ("null_dropoff_locations", some (qm.null_dropoff_locations : ℚ)),
   ("null_trip_distance", some (qm.null_trip_distance : ℚ)),
   ("zero_trip_distance", some (qm.zero_trip_distance : ℚ)),
   ("negative_trip_distance", some (qm.negative_trip_distance : ℚ)),
   ("mean_trip_distance", qm.mean_trip_distance),
   ("std_trip_distance", qm.std_trip_distance),
   ("mean_duration", qm.mean_duration),
   ("std_duration", qm.std_duration),
   ("outlier_duration_short", some (qm.outlier_duration_short : ℚ)),
   ("outlier_duration_long", some (qm.outlier_duration_long : ℚ)),
   ("data_completeness_score", qm.data_completeness_score)]

/-- The CloudWatch emission loop (lines 99-116): one point per metric,
skipping `NaN` values (`np.isnan` guard). -/
def emitQualityMetrics (qm : QualityMetrics) : List (String × ℚ) :=
  (qualityMetricValues qm).filterMap (fun p => p.2.map (fun v => (p.1, v)))

/-- S3 as the quality checker sees it: `none` means the raw-data key is
absent (`head_object` raises 404), `some none` means the object exists but
`read_parquet` raises on it, `some (some df)` is a readable dataset. -/
structure QualityWorld where
  rawObj : Option (Option (List TripRecord))
deriving Inhabited

/-- Observable outcome of one `check_data_quality` call.  `tmp_files_left`
lists the `/tmp` materializations still existing after return or raise. -/
structure QualityOutput where
  result : Except Unit String
  metrics_emitted : List (String × ℚ)
  reports_written : List (String × QualityReport)
  tmp_files_left : List String

/-- Embedding of `check_data_quality` (lines 52-167).  Any exception lands in
the handler that emits the `data_quality_check_failed` counter and re-raises;
`os.remove(temp_file)` runs only on the success path, so an exception thrown
after the download (the `some none` world) leaves the temp file behind.
Numeric formatting inside the returned message is elided. -/
def check_data_quality (sqrtQ : ℚ → ℚ) (w : QualityWorld) (t : Timestamp) : QualityOutput :=
  let ymt := get_data_date_from_context t
  let epoch := epochStr ymt.1 ymt.2.1
  match w.rawObj with
  | none =>
      { result := .error ()
        metrics_emitted := [("data_quality_check_failed", 1)]
        reports_written := []
        tmp_files_left := [] }
  | some none =>
      { result := .error ()
        metrics_emitted := [("data_quality_check_failed", 1)]
        reports_written := []
        tmp_files_left := ["/tmp/monitoring_data.parquet"] }
  | some (some df) =>
      let qm := computeQualityMetrics sqrtQ df
      let checks := computeQualityChecks qm
      let report : QualityReport :=
        { execution_date := ymt.2.2
          data_date := epoch
          quality_metrics := qm
          quality_checks := checks }
      let report_key :=
        "monitoring/data-quality/" ++ epoch ++ "/" ++ dateDashStr ymt.2.2 ++ ".json"
      { result := .ok ("Data quality monitored for " ++ epoch)
        metrics_emitted := emitQualityMetrics qm
        reports_written := [(report_key, report)]
        tmp_files_left := [] }

/-! ### Model Performance Checker (`check_model_performance`, lines 169-300) -/

/-- One feature dict (a `val_dicts` entry or prediction-log `features`). -/
structure FeatRow where
  puLocation : String
  doLocation : String
  trip_distance : Option ℚ
deriving DecidableEq

/-- Contents of `models/{epoch}/preprocessed_data.pkl`. -/
structure PreData where
  val_dicts : List FeatRow
  y_val : List ℚ

/-- A pickled `DictVectorizer`: `transform` maps feature dicts to a numeric
matrix; `none` models the call raising. -/
abbrev DvFn := List FeatRow → Option (List (List ℚ))

/-- A pickled regressor: `predict` maps a matrix to one value per row; `none`
models the call raising. -/
abbrev ModelFn := List (List ℚ) → Option (List ℚ)

/-- S3 and its pickled artifacts as the performance checker sees them:
`none` is an absent key, `some none` a present but unloadable pickle.
`headFault` makes the `head_object` existence probe raise something other
than a 404 (a transient service failure). -/
structure PerfWorld where
  modelObj : Option (Option ModelFn)
  headFault : Bool
  preprocessedObj : Option (Option PreData)
  dvObj : Option (Option DvFn)

/-- The `performance_metrics` dict; square roots of exact rational
variances are taken by the abstract float square root `sqrtQ`. -/
structure PerfMetrics where
  rmse : ℚ
  mae : ℚ
  r2_score : ℚ
  prediction_mean : ℚ
  prediction_std : ℚ
  actual_mean : ℚ
  actual_std : ℚ

/-- numpy mean of a nonempty list. -/
def meanP (xs : List ℚ) : ℚ := xs.sum / (xs.length : ℚ)

/-- numpy population standard deviation (`np.std`, `ddof = 0`). -/
def stdPop (sqrtQ : ℚ → ℚ) (xs : List ℚ) : ℚ :=
  sqrtQ (((xs.map (fun x => (x - meanP xs) ^ 2)).sum) / (xs.length : ℚ))

/-- Embedding of the metric computation (lines 219-230); `y_val` and
`y_pred` have equal positive length on the path that reaches it. -/
def computePerfMetrics (sqrtQ : ℚ → ℚ) (y_val y_pred : List ℚ) : PerfMetrics :=
  let pairs := y_val.zip y_pred
  let ss_res := (pairs.map (fun p => (p.1 - p.2) ^ 2)).sum
  let ss_tot := (y_val.map (fun y => (y - meanP y_val) ^ 2)).sum
  { rmse := sqrtQ (ss_res / (y_val.length : ℚ))
    mae := ((pairs.map (fun p => |p.1 - p.2|)).sum) / (y_val.length : ℚ)
    r2_score := if ss_tot = 0 then 0 else 1 - ss_res / ss_tot
    prediction_mean := meanP y_pred
    prediction_std := stdPop sqrtQ y_pred
    actual_mean := meanP y_val
    actual_std := stdPop sqrtQ y_val }

/-- The performance report JSON written to
`monitoring/model-performance/{epoch}/{run-date}.json`. -/
structure PerfReport where
  execution_date : Timestamp
  model_data_date : String
  performance_metrics : PerfMetrics
  validation_samples : Nat

/-- Observable outcome of one `check_model_performance` call. -/
structure PerfOutput where
  result : Except Unit String
  metrics_emitted : List (String × ℚ)
  reports_written : List (String × PerfReport)

/-- The CloudWatch emission loop for performance metrics (lines 232-249),
dict insertion order, no `NaN` filter in the source. -/
def emitPerfMetrics (pm : PerfMetrics) : List (String × ℚ) :=
  [("rmse", pm.rmse), ("mae", pm.mae), ("r2_score", pm.r2_score),
   ("prediction_mean", pm.prediction_mean), ("prediction_std", pm.prediction_std),
   ("actual_mean", pm.actual_mean), ("actual_std", pm.actual_std)]

/-- The skip outcome (lines 186-189): a returned message naming the epoch,
nothing emitted, nothing written, nothing raised. -/
def perfSkip (epoch : String) : PerfOutput :=
  { result := .ok ("Model performance monitoring skipped - no model for " ++ epoch)
    metrics_emitted := []
    reports_written := [] }

/-- The hard-failure outcome (lines 280-300): the
`performance_monitoring_failed` counter is emitted, then the error is
re-raised. -/
def perfFailed : PerfOutput :=
  { result := .error ()
    metrics_emitted := [("performance_monitoring_failed", 1)]
    reports_written := [] }

/-- Embedding of `check_model_performance` (lines 169-300).  The existence
probe is `head_object` inside a bare `except:`: any raise — 404 or transient
fault — sets `model_exists = False` and returns the skip message.  After
existence is confirmed, every load/compute failure reaches the outer handler,
which emits the failure counter and re-raises.  An empty or length-mismatched
validation set models sklearn raising.  Numeric formatting inside the success
message is elided. -/
def check_model_performance (sqrtQ : ℚ → ℚ) (w : PerfWorld) (t : Timestamp) : PerfOutput :=
  let ymt := get_data_date_from_context t
  let epoch := epochStr ymt.1 ymt.2.1
  match w.headFault, w.modelObj with
  | true, _ => perfSkip epoch
  | false, none => perfSkip epoch
  | false, some mo =>
    match w.preprocessedObj with
    | none => perfFailed
    | some none => perfFailed
    | some (some data) =>
      match mo with
      | none => perfFailed
      | some model =>
        match w.dvObj with
        | none => perfFailed
        | some none => perfFailed
        | some (some dv) =>
          match dv data.val_dicts with
          | none => perfFailed
          | some X_val =>
            match model X_val with
            | none => perfFailed
            | some y_pred =>
              if data.y_val.length = 0 ∨ y_pred.length ≠ data.y_val.length then perfFailed
              else
                let pm := computePerfMetrics sqrtQ data.y_val y_pred
                let report : PerfReport :=
                  { execution_date := ymt.2.2
                    model_data_date := epoch
                    performance_metrics := pm
                    validation_samples := data.val_dicts.length }
                let report_key :=
                  "monitoring/model-performance/" ++ epoch ++ "/" ++ dateDashStr ymt.2.2 ++ ".json"
                { result := .ok ("Model performance monitored for " ++ epoch)
                  metrics_emitted := emitPerfMetrics pm
                  reports_written := [(report_key, report)] }

/-! ### Service Health Checker (`check_lambda_health`, lines 302-418) -/

/-- The collaborators as the health checker sees them: `functionState` is
`lambda.get_function`'s reported `Configuration.State` (`none` when the call
raises); `cwFault` makes `get_metric_statistics` raise; the two sum lists are
the hourly `Sum` datapoints of the trailing 24-hour window. -/
structure HealthWorld where
  functionState : Option String
  cwFault : Bool
  invocationSums : List ℚ
  errorSums : List ℚ

/-- The health report JSON written to
`monitoring/lambda-health/{run-date}.json`. -/
structure HealthReport where
  execution_date : Timestamp
  function_name : String
  function_status : String
  total_invocations_24h : ℚ
  total_errors_24h : ℚ
  error_rate_percentage : ℚ
  health_status : String

/-- Observable outcome of one `check_lambda_health` call. -/
structure HealthOutput where
  result : Except Unit String
  metrics_emitted : List (String × ℚ)
  reports_written : List (String × HealthReport)

/-- Default `LAMBDA_FUNCTION_NAME` (line 310). -/
def lambda_function_name : String := "taxi-ride-duration-prediction"

/-- The failure outcome of the health checker (lines 416-418): the handler
only prints and re-raises — no failure counter is emitted. -/
def healthFailed : HealthOutput :=
  { result := .error ()
    metrics_emitted := []
    reports_written := [] }

/-- Embedding of `check_lambda_health` (lines 302-418): sum the hourly
invocation and error datapoints, guard the error-rate division by
`total_invocations > 0`, call the function healthy iff its state is
`Active` and the error rate is below 5, emit the rate and the boolean
`health_check_passed`, and write the report.  Numeric formatting inside the
success message is elided. -/
def check_lambda_health (w : HealthWorld) (t : Timestamp) : HealthOutput :=
  match w.functionState with
  | none => healthFailed
  | some function_status =>
    if w.cwFault then healthFailed
    else
      let total_invocations := w.invocationSums.sum
      let total_errors := w.errorSums.sum
      let error_rate := if 0 < total_invocations then total_errors / total_invocations * 100 else 0
      let health_status :=
        if function_status = "Active" ∧ error_rate < 5 then "healthy" else "unhealthy"
      let report : HealthReport :=
        { execution_date := t
          function_name := lambda_function_name
          function_status := function_status
          total_invocations_24h := total_invocations
          total_errors_24h := total_errors
          error_rate_percentage := error_rate
          health_status := health_status }
      { result := .ok ("Lambda health monitored. Status: " ++ health_status)
        metrics_emitted :=
          [("error_rate_percentage", error_rate),
           ("health_check_passed", if health_status = "healthy" then 1 else 0)]
        reports_written := [("monitoring/lambda-health/" ++ dateDashStr t ++ ".json", report)] }

/-! ### Monitoring Dataset Assembler (`get_monitoring_data`, lines 420-519) -/

/-- One row of the Reference/Current frames handed to the drift stage:
the feature columns plus the `target` column. -/
structure Row where
  puLocation : String
  doLocation : String
  trip_distance : Option ℚ
  target : ℚ
deriving DecidableEq

/-- One parsed prediction log `predictions/{yyyy}/{mm}/{dd}/{id}.json`. -/
structure PredLog where
  features : FeatRow
  predicted_duration : ℚ

/-- The collaborators as the assembler sees them.  `preprocessedObj` is the
epoch's `preprocessed_data.pkl` (`none` absent, `some none` unloadable);
`rawObj` is the raw parquet for the fallback (`none` when downloading or
reading it raises); `predLogs` maps a `yyyy/mm/dd` prefix to the listed
objects under it, an unparsable log being `none`. -/
structure MonWorld where
  preprocessedObj : Option (Option PreData)
  rawObj : Option (List TripRecord)
  predLogs : String → List (Option PredLog)

/-- The write-once Reference/Current snapshot handed to the drift stage. -/
structure MonData where
  reference : List Row
  current : List Row
deriving DecidableEq

/-- pandas `astype(str)` on a nullable integer column: a missing value
stringifies to `"nan"`. -/
def locStr : Option Int → String
  | some k => toString k
  | none => "nan"

/-- Reference rows from the pickle (lines 434-442): `DataFrame(val_dicts)`
plus a `target` column from `y_val`.  A length mismatch makes the column
assignment raise, which the fallback handler catches — hence `none`. -/
def referenceFromPickle (pd : PreData) : Option (List Row) :=
  if pd.val_dicts.length = pd.y_val.length then
    some ((pd.val_dicts.zip pd.y_val).map (fun fy =>
      { puLocation := fy.1.puLocation
        doLocation := fy.1.doLocation
        trip_distance := fy.1.trip_distance
        target := fy.2 }))
  else none

/-- The fallback reference (lines 444-462): recompute from raw data with the
training-time cleaning rule — duration in [1, 60] minutes, categorical
columns cast to string, `duration` renamed to `target`. -/
def cleanRawToReference (df : List TripRecord) : List Row :=
  (df.filter (fun r => decide (1 ≤ r.durationMinutes ∧ r.durationMinutes ≤ 60))).map
    (fun r =>
      { puLocation := locStr r.puLocation
        doLocation := locStr r.doLocation
        trip_distance := r.trip_distance
        target := r.durationMinutes })

/-- Reference construction with its fallback chain (lines 430-462):
pickle if loadable and consistent, else recomputed raw data; `none` when the
fallback download/read raises too (the outer handler then re-raises). -/
def buildReference (w : MonWorld) : Option (List Row) :=
  match w.preprocessedObj with
  | some (some pd) =>
    match referenceFromPickle pd with
    | some rows => some rows
    | none => w.rawObj.map cleanRawToReference
  | _ => w.rawObj.map cleanRawToReference

/-- A current-data row from one prediction log (lines 484-487 and 499):
the features dict with the emitted prediction as `target`. -/
def rowOfPredLog (l : PredLog) : Row :=
  { puLocation := l.features.puLocation
    doLocation := l.features.doLocation
    trip_distance := l.features.trip_distance
    target := l.predicted_duration }

/-- The 24-bucket collection loop (lines 465-495): for each of the 24
trailing hours, list the day-partition prefix of that instant and keep the
logs that parse; unparsable logs are skipped. -/
def collectCurrentLogs (w : MonWorld) (t : Timestamp) : List PredLog :=
  ((List.range 24).map (fun (h : Nat) =>
    (w.predLogs (dateSlashStr (subHours t (h : Int)))).filterMap id)).flatten

/-- Embedding of `get_monitoring_data` (lines 420-519): build Reference with
its fallback chain, collect the current-window logs, and default Current to
a copy of Reference when zero logs were collected. -/
def get_monitoring_data (w : MonWorld) (t : Timestamp) : Except Unit MonData :=
  match buildReference w with
  | none => .error ()
  | some reference_df =>
    let current_data_list := collectCurrentLogs w t
    let current_df :=
      if current_data_list.isEmpty then reference_df
      else current_data_list.map rowOfPredLog
    .ok { reference := reference_df, current := current_df }

/-! ## Theorems -/

/-- C1: the Drift Test Runner's branch selector is a total function of the
suite's overall boolean — `end_task` (the no-op sink) exactly when
`all_passed` is true, `trigger_alert` (the raise-alert sink) exactly when it
is false — and the returned selector always names exactly one of the two
wired terminal sinks. -/
theorem run_drift_check_selector_total (t : Timestamp) (r : DriftTestResult) :
    (run_drift_check t r).selector
        = (if r.all_passed then "end_task" else "trigger_alert")
      ∧ ((run_drift_check t r).selector = "end_task" ↔ r.all_passed = true)
      ∧ ((run_drift_check t r).selector = "trigger_alert" ↔ r.all_passed = false)
      ∧ (run_drift_check t r).selector ∈ run_drift_check_downstream := by
  obtain ⟨tests, ap⟩ := r
  cases ap <;> simp [run_drift_check, run_drift_check_downstream]

/-- C2: the Epoch Resolver is a pure total function equal to the spec's
reference definition — the (year, month) of the trigger timestamp minus
exactly 730 days — and repeated invocations on the same trigger timestamp
agree. -/
theorem get_data_date_matches_spec (t : Timestamp) :
    ((get_data_date_from_context t).1, (get_data_date_from_context t).2.1)
        = epochResolverSpec t
      ∧ get_data_date_from_context t = get_data_date_from_context t :=
  ⟨rfl, rfl⟩

/-- C7: the drift decision record round-trips — deserializing the stored
JSON artifact of a run yields a `summary.all_passed` boolean equal to the
`all_passed` boolean the same run used to choose the branch selector. -/
theorem drift_result_roundtrip (t : Timestamp) (r : DriftTestResult) :
    ((run_drift_check t r).stored.map (fun p => decodeAllPassed p.2))
        = [some r.all_passed]
      ∧ ((run_drift_check t r).selector = "end_task" ↔ r.all_passed = true) := by
  obtain ⟨tests, ap⟩ := r
  cases ap <;>
    simp [run_drift_check, decodeAllPassed, encodeDriftTestResult, Json.get, Json.asBool]

/-- Helper: any raise of the `head_object` existence probe — a 404 because
the model key is absent, or a transient fault — lands in the bare `except:`
and produces the skip outcome. -/
theorem perf_skip_of_probe_raise (sqrtQ : ℚ → ℚ) (w : PerfWorld) (t : Timestamp)
    (h : w.headFault = true ∨ w.modelObj = none) :
    check_model_performance sqrtQ w t
      = perfSkip (epochStr (yearOf (subDays t 730)) (monthOf (subDays t 730))) := by
  rcases w with ⟨mo, hf, pp, dv⟩
  rcases h with h | h
  · subst h
    rfl
  · subst h
    cases hf <;> rfl

/-- C3: when no trained-model artifact exists for the epoch, the Model
Performance Checker returns the skipped message naming the epoch, emits no
performance metrics, writes no report, and does not raise. -/
theorem perf_skipped_when_no_model (sqrtQ : ℚ → ℚ) (w : PerfWorld) (t : Timestamp)
    (h : w.modelObj = none) :
    (check_model_performance sqrtQ w t).result
        = .ok ("Model performance monitoring skipped - no model for "
            ++ epochStr (yearOf (subDays t 730)) (monthOf (subDays t 730)))
      ∧ (check_model_performance sqrtQ w t).metrics_emitted = []
      ∧ (check_model_performance sqrtQ w t).reports_written = [] := by
  rw [perf_skip_of_probe_raise sqrtQ w t (Or.inr h)]
  exact ⟨rfl, rfl, rfl⟩

/-- Witness for C3 at a concrete world holding no model artifact. -/
theorem perf_skipped_when_no_model_witness :
    (PerfWorld.mk none false none none).modelObj = none
      ∧ (check_model_performance (fun q => q) (PerfWorld.mk none false none none) 0).metrics_emitted
          = [] :=
  ⟨rfl, (perf_skipped_when_no_model (fun q => q) (PerfWorld.mk none false none none) 0 rfl).2.1⟩

/-- C10: the existence probe treats every raise — a transient service fault
as much as a 404 — as "model absent": the checker returns the skipped
message, emits nothing, writes nothing, and never propagates the probe
failure as a run failure. -/
theorem perf_probe_failure_treated_as_absent (sqrtQ : ℚ → ℚ) (w : PerfWorld) (t : Timestamp)
    (h : w.headFault = true ∨ w.modelObj = none) :
    (check_model_performance sqrtQ w t).result
        = .ok ("Model performance monitoring skipped - no model for "
            ++ epochStr (yearOf (subDays t 730)) (monthOf (subDays t 730)))
      ∧ (check_model_performance sqrtQ w t).metrics_emitted = []
      ∧ (check_model_performance sqrtQ w t).reports_written = [] := by
  rw [perf_skip_of_probe_raise sqrtQ w t h]
  exact ⟨rfl, rfl, rfl⟩

/-- Witness for C10 at a concrete world where the model artifact exists but
the existence probe raises a transient fault: the checker still skips. -/
theorem perf_probe_failure_treated_as_absent_witness :
    ((PerfWorld.mk (some (some (fun _ => some []))) true none none).headFault = true
        ∨ (PerfWorld.mk (some (some (fun _ => some []))) true none none).modelObj = none)
      ∧ (check_model_performance (fun q => q)
          (PerfWorld.mk (some (some (fun _ => some []))) true none none) 0).reports_written
          = [] :=
  ⟨Or.inl rfl,
    (perf_probe_failure_treated_as_absent (fun q => q)
      (PerfWorld.mk (some (some (fun _ => some []))) true none none) 0 (Or.inl rfl)).2.2⟩

/-- C4 counterexample: a present but empty raw dataset.  The check succeeds
(the numpy 0/0 only warns), yet the written report's completeness score is
`NaN` (`none`), so no completeness value in [0, 100] exists for this present
dataset. -/
theorem quality_completeness_counterexample :
    (check_data_quality (fun q => q) ⟨some (some [])⟩ 0).result
        = .ok ("Data quality monitored for 1968-01")
      ∧ ((check_data_quality (fun q => q) ⟨some (some [])⟩ 0).reports_written.map
          (fun p => p.2.quality_metrics.data_completeness_score)) = [none] := by
  exact ⟨rfl, rfl⟩

/-- C4 (amended): for every epoch whose raw dataset is present and contains
at least one record, the computed completeness score exists and satisfies
0 ≤ score ≤ 100; and the `no_negative_distances` gate of the written report
is true iff the count of negative trip-distance records is zero.  (With a
present but empty dataset the score is `NaN`; see the counterexample.) -/
theorem quality_completeness_bounds_and_negative_gate
    (sqrtQ : ℚ → ℚ) (df : List TripRecord) (t : Timestamp) :
    ∃ rep : QualityReport,
      (check_data_quality sqrtQ ⟨some (some df)⟩ t).reports_written.map Prod.snd = [rep]
        ∧ (df ≠ [] →
            ∃ c : ℚ, rep.quality_metrics.data_completeness_score = some c ∧ 0 ≤ c ∧ c ≤ 100)
        ∧ (rep.quality_checks.no_negative_distances = true ↔ df.countP distNeg = 0) := by
  refine ⟨_, rfl, ?_, ?_⟩
  · intro hne
    have hn : df.length ≠ 0 := fun h0 => hne (List.length_eq_zero.mp h0)
    set k : Nat := df.countP (fun r => r.puLocation.isNone)
        + df.countP (fun r => r.doLocation.isNone)
        + df.countP (fun r => r.trip_distance.isNone) with hk
    have hkle : k ≤ 3 * df.length := by
      have h1 := List.countP_le_length (fun r => r.puLocation.isNone) (l := df)
      have h2 := List.countP_le_length (fun r => r.doLocation.isNone) (l := df)
      have h3 := List.countP_le_length (fun r => r.trip_distance.isNone) (l := df)
      omega
    have hq : (0:ℚ) < (df.length : ℚ) := by
      exact_mod_cast Nat.pos_of_ne_zero hn
    have hnpos : (0:ℚ) < (df.length : ℚ) * 3 := by linarith
    have hkq : (k : ℚ) ≤ (df.length : ℚ) * 3 := by
      have hc : (k : ℚ) ≤ ((3 * df.length : Nat) : ℚ) := by exact_mod_cast hkle
      push_cast at hc
      linarith
    have hquot0 : (0:ℚ) ≤ (k : ℚ) / ((df.length : ℚ) * 3) :=
      div_nonneg (by positivity) (le_of_lt hnpos)
    have hquot1 : (k : ℚ) / ((df.length : ℚ) * 3) ≤ 1 := (div_le_one hnpos).mpr hkq
    refine ⟨(1 - (k : ℚ) / ((df.length : ℚ) * 3)) * 100, ?_, by nlinarith, by nlinarith⟩
    show (computeQualityMetrics sqrtQ df).data_completeness_score = _
    simp only [computeQualityMetrics, hn, if_false, hk]
  · show (computeQualityChecks (computeQualityMetrics sqrtQ df)).no_negative_distances = true
        ↔ df.countP distNeg = 0
    simp [computeQualityChecks, computeQualityMetrics]

/-- Witness for C4's amended theorem at a concrete one-row dataset. -/
theorem quality_completeness_bounds_witness :
    ([TripRecord.mk (some 1) (some 2) (some 5) 0 600] : List TripRecord) ≠ []
      ∧ ∃ rep : QualityReport,
          (check_data_quality (fun q => q)
            ⟨some (some [TripRecord.mk (some 1) (some 2) (some 5) 0 600])⟩ 0).reports_written.map
              Prod.snd = [rep]
            ∧ (∃ c : ℚ, rep.quality_metrics.data_completeness_score = some c ∧ 0 ≤ c ∧ c ≤ 100)
            ∧ (rep.quality_checks.no_negative_distances = true
                ↔ [TripRecord.mk (some 1) (some 2) (some 5) 0 600].countP distNeg = 0) := by
  refine ⟨List.cons_ne_nil _ _, ?_⟩
  obtain ⟨rep, h1, h2, h3⟩ :=
    quality_completeness_bounds_and_negative_gate (fun q => q)
      [TripRecord.mk (some 1) (some 2) (some 5) 0 600] 0
  exact ⟨rep, h1, h2 (List.cons_ne_nil _ _), h3⟩

/-- C5: on a successful query path the health checker's error rate is the
guarded quotient — 0 when the 24-hour invocation total is zero, otherwise
errors divided by invocations times 100 — and the verdict is healthy exactly
when the function state is `Active` and the rate is below 5; with zero
invocations the verdict depends only on the state. -/
theorem lambda_health_rate_and_verdict (w : HealthWorld) (t : Timestamp) (st : String)
    (hs : w.functionState = some st) (hf : w.cwFault = false)
    (hnn : ∀ x ∈ w.invocationSums, 0 ≤ x) :
    ∃ rep : HealthReport,
      (check_lambda_health w t).reports_written.map Prod.snd = [rep]
        ∧ rep.error_rate_percentage
            = (if w.invocationSums.sum = 0 then 0
               else w.errorSums.sum / w.invocationSums.sum * 100)
        ∧ (rep.health_status = "healthy"
            ↔ (st = "Active" ∧ rep.error_rate_percentage < 5))
        ∧ (w.invocationSums.sum = 0 → (rep.health_status = "healthy" ↔ st = "Active")) := by
  rcases w with ⟨fs, cw, inv, err⟩
  cases hs
  cases hf
  have hsum : (0:ℚ) ≤ inv.sum := List.sum_nonneg hnn
  have hrate : (if 0 < inv.sum then err.sum / inv.sum * 100 else 0)
      = (if inv.sum = 0 then 0 else err.sum / inv.sum * 100) := by
    by_cases hz : inv.sum = 0
    · simp [hz]
    · have hpos : 0 < inv.sum := lt_of_le_of_ne hsum (Ne.symm hz)
      simp [hz, hpos]
  refine ⟨_, rfl, ?_, ?_, ?_⟩
  · exact hrate
  · by_cases hc : st = "Active" ∧ (if 0 < inv.sum then err.sum / inv.sum * 100 else 0) < 5
    · simp only [check_lambda_health]
      simp [hc]
    · simp only [check_lambda_health]
      simp [if_neg hc, hc]
  · intro hz
    have h0 : (if 0 < inv.sum then err.sum / inv.sum * 100 else 0) = 0 := by
      simp [hz]
    simp only [check_lambda_health]
    simp [h0, hz]

/-- Witness for C5 at a concrete world: state `Active`, no datapoints. -/
theorem lambda_health_rate_and_verdict_witness :
    (HealthWorld.mk (some "Active") false [] []).functionState = some "Active"
      ∧ (HealthWorld.mk (some "Active") false [] []).cwFault = false
      ∧ (∀ x ∈ (HealthWorld.mk (some "Active") false [] []).invocationSums, (0:ℚ) ≤ x)
      ∧ ∃ rep : HealthReport,
          (check_lambda_health (HealthWorld.mk (some "Active") false [] []) 0).reports_written.map
              Prod.snd = [rep]
            ∧ rep.error_rate_percentage
                = (if (HealthWorld.mk (some "Active") false [] []).invocationSums.sum = 0 then 0
                   else (HealthWorld.mk (some "Active") false [] []).errorSums.sum
                      / (HealthWorld.mk (some "Active") false [] []).invocationSums.sum * 100)
            ∧ (rep.health_status = "healthy"
                ↔ ("Active" = "Active" ∧ rep.error_rate_percentage < 5))
            ∧ ((HealthWorld.mk (some "Active") false [] []).invocationSums.sum = 0
                → (rep.health_status = "healthy" ↔ "Active" = "Active")) :=
  ⟨rfl, rfl, by simp,
    lambda_health_rate_and_verdict (HealthWorld.mk (some "Active") false [] []) 0 "Active"
      rfl rfl (by simp)⟩

/-- C6: when zero prediction logs exist across the 24 trailing hourly
buckets, assembly still succeeds and the Current dataset is a copy of the
Reference dataset, row-for-row equal. -/
theorem monitoring_current_defaults_to_reference (w : MonWorld) (t : Timestamp)
    (out : MonData)
    (hlogs : ∀ h : Nat, h < 24 → w.predLogs (dateSlashStr (subHours t (h : Int))) = [])
    (hok : get_monitoring_data w t = .ok out) :
    out.current = out.reference := by
  have hcol : collectCurrentLogs w t = [] := by
    unfold collectCurrentLogs
    rw [List.flatten_eq_nil_iff]
    intro l hl
    rcases List.mem_map.mp hl with ⟨n, hn, rfl⟩
    rw [hlogs n (List.mem_range.mp hn)]
    rfl
  unfold get_monitoring_data at hok
  cases hb : buildReference w with
  | none => rw [hb] at hok; cases hok
  | some ref =>
    rw [hb] at hok
    simp only [hcol, List.isEmpty_nil, if_true] at hok
    have h := Except.ok.inj hok
    rw [← h]

/-- Witness for C6 at a concrete world with a consistent pickle and no
prediction logs in any bucket. -/
theorem monitoring_current_defaults_witness :
    (∀ h : Nat, h < 24 →
        (MonWorld.mk (some (some (PreData.mk [] []))) none (fun _ => [])).predLogs
          (dateSlashStr (subHours 0 (h : Int))) = [])
      ∧ get_monitoring_data (MonWorld.mk (some (some (PreData.mk [] []))) none (fun _ => [])) 0
          = .ok (MonData.mk [] [])
      ∧ (MonData.mk [] []).current = (MonData.mk [] []).reference :=
  ⟨fun _ _ => rfl, rfl,
    monitoring_current_defaults_to_reference
      (MonWorld.mk (some (some (PreData.mk [] []))) none (fun _ => [])) 0
      (MonData.mk [] []) (fun _ _ => rfl) rfl⟩

/-- C8 counterexample: the Service Health Checker at a concrete world whose
function-descriptor query raises — the fatal error is propagated but no
failure counter (no metric at all) is emitted first. -/
theorem health_failure_no_counter_counterexample :
    (check_lambda_health (HealthWorld.mk none false [] []) 0).result = .error ()
      ∧ (check_lambda_health (HealthWorld.mk none false [] []) 0).metrics_emitted = [] :=
  ⟨rfl, rfl⟩

/-- C8 (amended): the Data Quality and Model Performance checkers emit their
dedicated failure counter before re-raising any fatal error, but the Service
Health Checker re-raises without emitting any failure counter. -/
theorem failure_counter_emission_policy :
    (∀ (sqrtQ : ℚ → ℚ) (w : QualityWorld) (t : Timestamp),
        (check_data_quality sqrtQ w t).result = .error () →
          ("data_quality_check_failed", (1:ℚ)) ∈ (check_data_quality sqrtQ w t).metrics_emitted)
      ∧ (∀ (sqrtQ : ℚ → ℚ) (w : PerfWorld) (t : Timestamp),
          (check_model_performance sqrtQ w t).result = .error () →
            ("performance_monitoring_failed", (1:ℚ))
              ∈ (check_model_performance sqrtQ w t).metrics_emitted)
      ∧ (∀ (w : HealthWorld) (t : Timestamp),
          (check_lambda_health w t).result = .error () →
            (check_lambda_health w t).metrics_emitted = []) := by
  refine ⟨?_, ?_, ?_⟩
  · intro sqrtQ w t h
    rcases w with ⟨ro⟩
    match ro with
    | none => simp [check_data_quality]
    | some none => simp [check_data_quality]
    | some (some df) => simp [check_data_quality] at h
  · intro sqrtQ w t h
    rcases w with ⟨mo, hf, pp, dv⟩
    cases hf with
    | true =>
      rw [perf_skip_of_probe_raise sqrtQ ⟨mo, true, pp, dv⟩ t (Or.inl rfl)] at h
      exact absurd h (by simp [perfSkip])
    | false =>
      cases mo with
      | none =>
        rw [perf_skip_of_probe_raise sqrtQ ⟨none, false, pp, dv⟩ t (Or.inr rfl)] at h
        exact absurd h (by simp [perfSkip])
      | some mo' =>
        cases pp with
        | none => simp [check_model_performance, perfFailed]
        | some pp' =>
          cases pp' with
          | none => simp [check_model_performance, perfFailed]
          | some data =>
            cases mo' with
            | none => simp [check_model_performance, perfFailed]
            | some model =>
              cases dv with
              | none => simp [check_model_performance, perfFailed]
              | some dv' =>
                cases dv' with
                | none => simp [check_model_performance, perfFailed]
                | some dvf =>
                  cases hX : dvf data.val_dicts with
                  | none => simp [check_model_performance, hX, perfFailed]
                  | some X_val =>
                    cases hY : model X_val with
                    | none => simp [check_model_performance, hX, hY, perfFailed]
                    | some y_pred =>
                      by_cases hg : data.y_val = [] ∨ ¬y_pred.length = data.y_val.length
                      · simp [check_model_performance, hX, hY, hg, perfFailed]
                      · simp [check_model_performance, hX, hY, hg] at h
  · intro w t h
    rcases w with ⟨fs, cw, inv, err⟩
    cases fs with
    | none => rfl
    | some st =>
      cases cw with
      | true => rfl
      | false => simp [check_lambda_health] at h

/-- Witness for C8's amended theorem: the quality checker at a concrete
world with an absent raw dataset emits its failure counter and raises. -/
theorem failure_counter_emission_policy_witness :
    (check_data_quality (fun q => q) ⟨none⟩ 0).result = .error ()
      ∧ ("data_quality_check_failed", (1:ℚ))
          ∈ (check_data_quality (fun q => q) ⟨none⟩ 0).metrics_emitted :=
  ⟨rfl, failure_counter_emission_policy.1 (fun q => q) ⟨none⟩ 0 rfl⟩

/-- C9 counterexample: a present but unreadable dataset object — the checker
fails after the download, and the transient local materialization
`/tmp/monitoring_data.parquet` still exists after the raise. -/
theorem quality_temp_left_counterexample :
    (check_data_quality (fun q => q) ⟨some none⟩ 0).result = .error ()
      ∧ "/tmp/monitoring_data.parquet"
          ∈ (check_data_quality (fun q => q) ⟨some none⟩ 0).tmp_files_left :=
  ⟨rfl, by simp [check_data_quality]⟩

/-- C9 (amended): the temp dataset file is removed whenever the checker
succeeds, and no temp file exists when the checker fails before the
download; but when the checker fails after the dataset was materialized,
the temp file is left behind. -/
theorem quality_temp_cleanup (sqrtQ : ℚ → ℚ) (w : QualityWorld) (t : Timestamp) :
    (∀ msg, (check_data_quality sqrtQ w t).result = .ok msg →
        (check_data_quality sqrtQ w t).tmp_files_left = [])
      ∧ (w.rawObj = none → (check_data_quality sqrtQ w t).tmp_files_left = [])
      ∧ (w.rawObj = some none →
          (check_data_quality sqrtQ w t).tmp_files_left = ["/tmp/monitoring_data.parquet"]) := by
  rcases w with ⟨ro⟩
  refine ⟨?_, ?_, ?_⟩
  · intro msg hmsg
    match ro with
    | none => simp [check_data_quality] at hmsg
    | some none => simp [check_data_quality] at hmsg
    | some (some df) => rfl
  · intro h
    subst h
    rfl
  · intro h
    subst h
    rfl

/-- Witness for C9's amended theorem at a concrete succeeding world. -/
theorem quality_temp_cleanup_witness :
    (check_data_quality (fun q => q) ⟨some (some [])⟩ 0).result
        = .ok ("Data quality monitored for 1968-01")
      ∧ (check_data_quality (fun q => q) ⟨some (some [])⟩ 0).tmp_files_left = [] :=
  ⟨rfl,
    (quality_temp_cleanup (fun q => q) ⟨some (some [])⟩ 0).1
      "Data quality monitored for 1968-01" rfl⟩

end MonitoringDag
